import Mathlib

/-!
Shallow embedding of the annotation placement and quality-gate engine of the
agentic grader repository.  Coordinates are rationals (the Python code works
with document point units as floats; every constant appearing in the source is
a decimal with an exact rational value).  Each definition mirrors one Python
function, named after it.
-/

namespace Grader

/-- Axis-aligned rectangle `(x0, y0, x1, y1)` in document point units,
mirroring the 4-tuples passed around the Python code. -/
structure Rect where
  x0 : ℚ
  y0 : ℚ
  x1 : ℚ
  y1 : ℚ
deriving DecidableEq

/-- `PDFFormattingAgent._rectangles_overlap` (pdf_formatter.py, lines 585-596):
`not (r1[2] < r2[0] or r1[0] > r2[2] or r1[3] < r2[1] or r1[1] > r2[3])`. -/
def rectanglesOverlap (rect1 rect2 : Rect) : Bool :=
  !(decide (rect1.x1 < rect2.x0) || decide (rect1.x0 > rect2.x1) ||
    decide (rect1.y1 < rect2.y0) || decide (rect1.y0 > rect2.y1))

/-- The role tag carried by the region dicts that `_analyze_layout`
(document_analyzer.py) emits (`"type": "question" | "answer" | "text"`). -/
inductive RegionKind where
  | question
  | answer
  | text
deriving DecidableEq

/-- One region dict: `{"page": ..., "bbox": ..., "type": ..., "question_num": ...}`.
The `"text"` payload is irrelevant to every claim and is omitted;
`question_num` is `none` for plain text blocks. -/
structure Region where
  page : ℤ
  bbox : Rect
  kind : RegionKind
  question_num : Option ℤ
deriving DecidableEq

/-- `LayoutAnalysisResult` (document_analyzer.py, lines 20-26). -/
structure LayoutAnalysisResult where
  question_regions : List Region
  answer_regions : List Region
  text_blocks : List Region
  confidence : ℚ
deriving DecidableEq

/-- `PDFFormattingAgent._has_overlap` (pdf_formatter.py, lines 394-416): the
candidate rectangle is tested against the question regions, the answer regions
and the text blocks of the given page — and against nothing else. -/
def hasOverlap (rect : Rect) (layout : LayoutAnalysisResult) (page_num : ℤ) : Bool :=
  layout.question_regions.any
    (fun q => q.page == page_num && rectanglesOverlap rect q.bbox) ||
  layout.answer_regions.any
    (fun a => a.page == page_num && rectanglesOverlap rect a.bbox) ||
  layout.text_blocks.any
    (fun b => b.page == page_num && rectanglesOverlap rect b.bbox)

/-- Content of the dict returned by `_calculate_text_dimensions`
(pdf_formatter.py, lines 441-455). -/
structure TextDims where
  width : ℚ
  height : ℚ
deriving DecidableEq

/-- `PDFFormattingAgent._calculate_text_dimensions` with its approximation
`char_width = font_size * 0.5`, `width = len(text) * char_width`,
`height = font_size + 2`.  (The unused `chars_per_line` entry is omitted.) -/
def calculateTextDimensions (text : String) (font_size : ℚ) : TextDims :=
  let char_width := font_size * (1 / 2)
  { width := (text.length : ℚ) * char_width, height := font_size + 2 }

/-- Page dimension dict `{"width": ..., "height": ...}`. -/
structure PageDims where
  width : ℚ
  height : ℚ
deriving DecidableEq

/-- Measure for the two downward-scanning loops: the ceiling of the remaining
vertical room, as a natural number.  Each iteration adds at least `10` to `y`,
so the measure strictly decreases while any room is left. -/
theorem ceil_toNat_sub_lt {q s : ℚ} (hq : 0 < q) (hs : (10 : ℚ) ≤ s) :
    (⌈q - s⌉).toNat < (⌈q⌉).toNat := by
  have h1 : ⌈q - s⌉ ≤ ⌈q - (10 : ℚ)⌉ := Int.ceil_le_ceil (by linarith)
  have h2 : ⌈q - (10 : ℚ)⌉ = ⌈q⌉ - 10 := by
    exact_mod_cast Int.ceil_sub_int q (10 : ℤ)
  have h3 : (0 : ℤ) < ⌈q⌉ := Int.ceil_pos.mpr hq
  omega

/-- The candidate rectangle tested by `_find_next_available_space` at height
`y`: `(x - 5, y - 5, x + width + 5, y + text_dims["height"] + 5)` with
`x = 50` and `width = page_info["width"] - 100`. -/
def scanTestRect (td : TextDims) (page_info : PageDims) (y : ℚ) : Rect :=
  ⟨50 - 5, y - 5, 50 + (page_info.width - 100) + 5, y + td.height + 5⟩

/-- The `while` loop of `PDFFormattingAgent._find_next_available_space`
(pdf_formatter.py, lines 431-439), starting from a given `y`:
while `y < page_info["height"] - 50`, return `(50, y)` at the first
overlap-free candidate, else step `y` by `text_dims["height"] + 10`; once the
bound is passed, return the last-resort `(50, 50)`.
The Python floats cannot go negative here (`height = font_size + 2`); the
embedding records that as the hypothesis `hh`, which the loop's termination
rests on. -/
def findNextGo (td : TextDims) (layout : LayoutAnalysisResult) (page_num : ℤ)
    (page_info : PageDims) (hh : 0 ≤ td.height) (y : ℚ) : ℚ × ℚ :=
  if h : y < page_info.height - 50 then
    if !(hasOverlap (scanTestRect td page_info y) layout page_num) then
      (50, y)
    else
      findNextGo td layout page_num page_info hh (y + (td.height + 10))
  else
    (50, 50)
termination_by (⌈page_info.height - 50 - y⌉).toNat
decreasing_by
  have hq : 0 < page_info.height - 50 - y := by linarith
  have hs : (10 : ℚ) ≤ td.height + 10 := by linarith
  have := ceil_toNat_sub_lt hq hs
  have harg : page_info.height - 50 - (y + (td.height + 10)) =
      (page_info.height - 50 - y) - (td.height + 10) := by ring
  rw [harg]
  exact this

/-- `PDFFormattingAgent._find_next_available_space` (pdf_formatter.py, lines
418-439): top-down scan from `y = 50`. -/
def findNextAvailableSpace (td : TextDims) (layout : LayoutAnalysisResult)
    (page_num : ℤ) (page_info : PageDims) (hh : 0 ≤ td.height) : ℚ × ℚ :=
  findNextGo td layout page_num page_info hh 50

/-- The candidate rectangle tested by the below-answer loop of
`_plan_feedback_placement`:
`(x - 5, y - 5, x + available_width + 5, y + text_dims["height"] * 2 + 5)`. -/
def belowTestRect (td : TextDims) (available_width x y : ℚ) : Rect :=
  ⟨x - 5, y - 5, x + available_width + 5, y + td.height * 2 + 5⟩

/-- The `while` loop of `PDFFormattingAgent._plan_feedback_placement`
(pdf_formatter.py, lines 368-379): while the candidate rectangle overlaps,
move `y` down by `text_dims["height"] + 10`; if `y` passes
`page_dims["height"] - 50`, break to `_find_next_available_space`. -/
def belowLoopGo (td : TextDims) (available_width : ℚ)
    (layout : LayoutAnalysisResult) (page_num : ℤ) (page_dims : PageDims)
    (hh : 0 ≤ td.height) (x y : ℚ) : ℚ × ℚ :=
  if hasOverlap (belowTestRect td available_width x y) layout page_num then
    if h : page_dims.height - 50 < y + (td.height + 10) then
      findNextAvailableSpace td layout page_num page_dims hh
    else
      belowLoopGo td available_width layout page_num page_dims hh x
        (y + (td.height + 10))
  else
    (x, y)
termination_by (⌈page_dims.height - 50 - y⌉).toNat
decreasing_by
  have hq : 0 < page_dims.height - 50 - y := by linarith
  have hs : (10 : ℚ) ≤ td.height + 10 := by linarith
  have := ceil_toNat_sub_lt hq hs
  have harg : page_dims.height - 50 - (y + (td.height + 10)) =
      (page_dims.height - 50 - y) - (td.height + 10) := by ring
  rw [harg]
  exact this

/-- The page-dimension derivation of `_plan_feedback_placement`
(pdf_formatter.py, lines 303-333).  If some text block lives on the answer's
page, the dimensions are the maxima of the page's text-block bounds plus 50;
otherwise the maxima of the page's question/answer bounds plus 100; otherwise
the A4 default `(595, 842)`.  (`next(p for p in text_blocks if page matches)`
succeeds exactly when the filtered list is non-empty, so the embedding
branches on the filtered list.) -/
def planPageDims (answer_info : Region) (layout : LayoutAnalysisResult) : PageDims :=
  match layout.text_blocks.filter (fun p => p.page == answer_info.page) with
  | [] =>
    match (layout.question_regions ++ layout.answer_regions).filter
        (fun r => r.page == answer_info.page) with
    | [] => ⟨595, 842⟩
    | r :: rs =>
      ⟨(rs.foldl (fun m s => max m s.bbox.x1) r.bbox.x1) + 100,
       (rs.foldl (fun m s => max m s.bbox.y1) r.bbox.y1) + 100⟩
  | b :: bs =>
    ⟨(bs.foldl (fun m s => max m s.bbox.x1) b.bbox.x1) + 50,
     (bs.foldl (fun m s => max m s.bbox.y1) b.bbox.y1) + 50⟩

/-- `FeedbackPlacement` (pdf_formatter.py, lines 28-36). -/
structure FeedbackPlacement where
  page_num : ℤ
  position : ℚ × ℚ
  width : ℚ
  text : String
  color : ℚ × ℚ × ℚ
  is_multiline : Bool
deriving DecidableEq

/-- `PDFFormattingAgent._plan_feedback_placement` (pdf_formatter.py, lines
290-392).  Strategy 1 (right of the answer) when the text width fits and the
candidate rectangle is overlap-free; otherwise strategy 2 (below the answer)
with the downward-shifting loop, which itself breaks to strategy 3
(`_find_next_available_space`).  The function reads `layout` only; it adds
nothing to any of its region lists.  (The unused `question_info` parameter of
the Python signature is dropped.) -/
def planFeedbackPlacement (feedback_text : String) (answer_info : Region)
    (layout : LayoutAnalysisResult) (is_correct : Bool) : FeedbackPlacement :=
  let text_dims := calculateTextDimensions feedback_text 11
  let page_dims := planPageDims answer_info layout
  let answer_bbox := answer_info.bbox
  let x := answer_bbox.x1 + 30
  let y := answer_bbox.y0
  let available_width := page_dims.width - x - 50
  let color : ℚ × ℚ × ℚ := if is_correct then (0, 7 / 10, 0) else (1, 0, 0)
  if text_dims.width ≤ available_width ∧
      hasOverlap ⟨x - 5, y - 5, x + text_dims.width + 5, y + text_dims.height + 5⟩
        layout answer_info.page = false then
    { page_num := answer_info.page, position := (x, y), width := available_width,
      text := feedback_text, color := color, is_multiline := false }
  else
    let x2 := answer_bbox.x0
    let y2 := answer_bbox.y1 + 15
    let available_width2 := page_dims.width - x2 - 50
    let pos := belowLoopGo text_dims available_width2 layout answer_info.page
      page_dims (by simp [text_dims, calculateTextDimensions]; norm_num) x2 y2
    { page_num := answer_info.page, position := pos, width := available_width2,
      text := feedback_text, color := color, is_multiline := true }

/-- `PDFFormattingAgent._find_answer_region` (pdf_formatter.py, lines
256-288): first the answers whose `question_num` matches, else the first
(lowest-`y0`) answer on the question's page that starts below the question's
`y0` and within 100 points of its `y1`; `none` when neither exists. -/
def findAnswerRegion (question_info : Region) (answer_regions : List Region) :
    Option Region :=
  match answer_regions.filter
      (fun a => a.question_num == question_info.question_num) with
  | m :: _ => some m
  | [] =>
    match answer_regions.filter (fun a =>
        a.page == question_info.page &&
        decide (question_info.bbox.y0 < a.bbox.y0) &&
        decide (a.bbox.y0 < question_info.bbox.y1 + 100)) with
    | [] => none
    | a :: as =>
      some (as.foldl (fun m b => if b.bbox.y0 < m.bbox.y0 then b else m) a)

/-- One entry of the `feedback_data` list handed to `create_marked_pdf`:
`{"question_num": ..., "feedback": ..., "is_correct": ...}`. -/
structure FeedbackItem where
  question_num : ℤ
  feedback : String
  is_correct : Bool
deriving DecidableEq

/-- The annotation-selection skeleton of `PDFFormattingAgent.create_marked_pdf`
(pdf_formatter.py, lines 90-147): for each page and each question region on
that page, feedback text is placed only when a feedback entry with the
question's number exists (`if not feedback: continue`) and
`_find_answer_region` locates an answer region (`if not answer_info:
continue`).  The returned list holds the question numbers that actually
receive a feedback block, in processing order. -/
def placedFeedback (layout : LayoutAnalysisResult)
    (feedback_data : List FeedbackItem) (num_pages : ℕ) : List ℤ :=
  (List.range num_pages).flatMap fun page_num =>
    (layout.question_regions.filter
        (fun q => q.page == (page_num : ℤ))).filterMap fun q =>
      match feedback_data.find?
          (fun f => (some f.question_num : Option ℤ) == q.question_num) with
      | none => none
      | some f =>
        match findAnswerRegion q layout.answer_regions with
        | none => none
        | some _ => some f.question_num

/-- The greedy word-packing loop of `PDFFormattingAgent.create_marked_pdf`
(pdf_formatter.py, lines 186-204), on the word list after `split()`.  State:
`current_line` (the words of the line being filled) and `current_width`.  A
word fits while `current_width + word_width <= margin_width`; otherwise the
current line is flushed (when non-empty) and the word starts a fresh line —
note the reset happens unconditionally, outside the `if current_line:` guard.
The final `current_line` is flushed when non-empty. -/
def wrapWordsGo (char_width margin_width : ℚ) :
    List String → ℚ → List String → List (List String)
  | current_line, _, [] =>
    if current_line.isEmpty then [] else [current_line]
  | current_line, current_width, word :: words =>
    let word_width := (word.length : ℚ) * char_width
    if current_width + word_width ≤ margin_width then
      wrapWordsGo char_width margin_width (current_line ++ [word])
        (current_width + word_width + char_width) words
    else
      (if current_line.isEmpty then [] else [current_line]) ++
        wrapWordsGo char_width margin_width [word] word_width words

/-- The margin wrap of `create_marked_pdf`, starting from empty state. -/
def wrapWords (char_width margin_width : ℚ) (words : List String) :
    List (List String) :=
  wrapWordsGo char_width margin_width [] 0 words

/-- The wrapping/insertion loop of `PDFService.create_marked_pdf`
(pdf_service.py, lines 107-136), on the word list of the comment.  A word
fits while `current_length + len(word) + 1 <= chars_per_line`.  In the
overflow branch the flush *and* the state reset both sit inside the
`if current_line:` guard, so when `current_line` is empty the word is
discarded and the state is left unchanged.  The final `current_line` is
flushed when non-empty.  The returned lists are the word groups inserted
into the page, in order. -/
def serviceWrapGo (chars_per_line : ℤ) :
    List String → ℤ → List String → List (List String)
  | current_line, _, [] =>
    if current_line.isEmpty then [] else [current_line]
  | current_line, current_length, word :: words =>
    if current_length + (word.length : ℤ) + 1 ≤ chars_per_line then
      serviceWrapGo chars_per_line (current_line ++ [word])
        (current_length + (word.length : ℤ) + 1) words
    else
      if current_line.isEmpty then
        serviceWrapGo chars_per_line current_line current_length words
      else
        current_line ::
          serviceWrapGo chars_per_line [word] (word.length : ℤ) words

/-- The `PDFService` wrap, starting from empty state. -/
def serviceWrap (chars_per_line : ℤ) (words : List String) :
    List (List String) :=
  serviceWrapGo chars_per_line [] 0 words

/-- The quality-control retry loop of `AgenticGradingService.process_submission`
(agentic_grading_service.py, lines 105-154), with `verify_output` abstracted
as the oracle `approvedAt` (whether the attempt verified at a given
`retry_count` is approved; the loop is otherwise deterministic).  The second
argument is the loop counter `retry_count`, the third the remaining iteration
budget `max_retries - retry_count`.  Returned: the number of `verify_output`
calls, the number of replanning `create_marked_pdf` calls made inside the
loop, and the final `quality_check_passed` flag.  (The initial
`create_marked_pdf` call at line 89 precedes this loop and is counted
separately by `totalPlanningCalls`.) -/
def qcRetryGo (approvedAt : ℕ → Bool) : ℕ → ℕ → ℕ × ℕ × Bool
  | _, 0 => (0, 0, false)
  | retry_count, remaining + 1 =>
    if approvedAt retry_count then
      (1, 0, true)
    else
      let r := qcRetryGo approvedAt (retry_count + 1) remaining
      (r.1 + 1, r.2.1 + 1, r.2.2)

/-- The retry loop as entered by `process_submission`: `retry_count = 0`,
budget `max_retries`. -/
def processSubmissionRetries (approvedAt : ℕ → Bool) (max_retries : ℕ) :
    ℕ × ℕ × Bool :=
  qcRetryGo approvedAt 0 max_retries

/-- Total `create_marked_pdf` calls of one `process_submission` run: the
initial call (line 89) plus the replanning calls of the retry loop. -/
def totalPlanningCalls (approvedAt : ℕ → Bool) (max_retries : ℕ) : ℕ :=
  1 + (processSubmissionRetries approvedAt max_retries).2.1

/-- One extracted text line of `_analyze_layout` (document_analyzer.py):
page number, line bounding box, stripped span text. -/
structure Line where
  page : ℤ
  bbox : Rect
  text : String
deriving DecidableEq

/-- The classifier state of `DocumentAnalyzerAgent._analyze_layout`:
`current_question` (the most recent question number, initially `None`) and
`current_question_bbox`. -/
structure ClassifierState where
  current_question : Option ℤ
  current_question_bbox : Option Rect
deriving DecidableEq

/-- Python truthiness of the optional integer `current_question`, as tested
by `if not is_question and current_question:`: `None` and `0` are falsy. -/
def pyTruthy : Option ℤ → Bool
  | none => false
  | some n => n != 0

/-- The per-line body of `DocumentAnalyzerAgent._analyze_layout`
(document_analyzer.py, lines 197-273).  The regular-expression engine is a
collaborator: `matchQ` is the cascade over the four question patterns
(returning the first match's extracted number and text), `matchA` the cascade
over the three explicit answer patterns.  On a question match, a question
region is emitted and the state is updated; otherwise, when
`current_question` is truthy, an explicit answer match emits an answer region
tied to `current_question`, else an implied answer region is emitted when the
line's `bbox[1]` exceeds `current_question_bbox[3]` (the extra
`not any(re.match(p, text))` re-check of the source is subsumed by being in
the `matchQ = none` branch).  All other lines emit nothing. -/
def classifyLine (matchQ : String → Option (ℤ × String))
    (matchA : String → Option String) (st : ClassifierState) (line : Line) :
    ClassifierState × List Region :=
  match matchQ line.text with
  | some (question_num, _) =>
    ({ current_question := some question_num,
       current_question_bbox := some line.bbox },
     [⟨line.page, line.bbox, RegionKind.question, some question_num⟩])
  | none =>
    if pyTruthy st.current_question then
      match matchA line.text with
      | some _ =>
        (st, [⟨line.page, line.bbox, RegionKind.answer, st.current_question⟩])
      | none =>
        match st.current_question_bbox with
        | some cb =>
          if cb.y1 < line.bbox.y0 then
            (st, [⟨line.page, line.bbox, RegionKind.answer, st.current_question⟩])
          else
            (st, [])
        | none => (st, [])
    else
      (st, [])

/-- Folding `classifyLine` over the ordered line sequence, accumulating the
emitted regions in order (`layout_info.append`). -/
def classifyLines (matchQ : String → Option (ℤ × String))
    (matchA : String → Option String) (st : ClassifierState)
    (lines : List Line) : ClassifierState × List Region :=
  match lines with
  | [] => (st, [])
  | line :: rest =>
    let (st2, regs) := classifyLine matchQ matchA st line
    let (st3, regs2) := classifyLines matchQ matchA st2 rest
    (st3, regs ++ regs2)

/-- The final sort key of `_analyze_layout`:
`layout_info.sort(key=lambda x: (x["page"], x["bbox"][1]))`, totalised as the
corresponding `≤` relation (Python's stable sort with this key equals the
stable insertion sort under this relation). -/
def layoutOrder (a b : Region) : Prop :=
  a.page < b.page ∨ (a.page = b.page ∧ a.bbox.y0 ≤ b.bbox.y0)

instance : DecidableRel layoutOrder := fun _ _ =>
  inferInstanceAs (Decidable (_ ∨ _))

/-- `DocumentAnalyzerAgent._analyze_layout` (document_analyzer.py, lines
172-294), minus the I/O: classify every line, sort the emitted regions by
`(page, bbox.y0)` and return them together with the confidence
`0.9 if questions_found > 0 else 0.0`. -/
def analyzeLayoutTool (matchQ : String → Option (ℤ × String))
    (matchA : String → Option String) (lines : List Line) :
    List Region × ℚ :=
  let layout_info :=
    (classifyLines matchQ matchA ⟨none, none⟩ lines).2
  let sorted := List.insertionSort layoutOrder layout_info
  let questions_found :=
    (sorted.filter (fun r => r.kind == RegionKind.question)).length
  (sorted, if 0 < questions_found then 9 / 10 else 0)

/-- The question-region sort of `analyze_layout`:
`question_regions.sort(key=lambda x: x["question_num"])` (every question
region carries a number; `getD 0` only totalises the key). -/
def questionOrder (a b : Region) : Prop :=
  a.question_num.getD 0 ≤ b.question_num.getD 0

instance : DecidableRel questionOrder := fun _ _ =>
  inferInstanceAs (Decidable (_ ≤ _))

/-- `DocumentAnalyzerAgent.analyze_layout` (document_analyzer.py, lines
88-166): split the tool's region list into question and answer regions, sort
the questions by number, attach the document's text blocks (extracted by the
PDF collaborator and passed in here) and the tool's confidence. -/
def analyzeLayout (matchQ : String → Option (ℤ × String))
    (matchA : String → Option String) (lines : List Line)
    (text_blocks : List Region) : LayoutAnalysisResult :=
  let tool := analyzeLayoutTool matchQ matchA lines
  { question_regions :=
      List.insertionSort questionOrder
        (tool.1.filter (fun r => r.kind == RegionKind.question)),
    answer_regions := tool.1.filter (fun r => r.kind == RegionKind.answer),
    text_blocks := text_blocks,
    confidence := tool.2 }

/-- The fatal-precondition guard of `AgenticGradingService.process_submission`
(agentic_grading_service.py, lines 52-56): when no question regions were
detected, the run raises `"No questions detected in the document"` before the
formatter is ever invoked; otherwise the placement stage `plan` runs. -/
def processSubmissionPipeline (layout : LayoutAnalysisResult)
    (plan : LayoutAnalysisResult → List ℤ) : Except String (List ℤ) :=
  if layout.question_regions.isEmpty then
    Except.error "No questions detected in the document"
  else
    Except.ok (plan layout)

/-- PyMuPDF's `Rect.intersects`, used by `verify_output`'s overlap scan: the
common rectangle must be non-empty, i.e. strictly positive in both axes. -/
def fitzIntersects (r1 r2 : Rect) : Bool :=
  decide (max r1.x0 r2.x0 < min r1.x1 r2.x1) &&
  decide (max r1.y0 r2.y0 < min r1.y1 r2.y1)

/-- The view of one rendered page that `QualityControlAgent.verify_output`
reads: page dimensions, the text-block bounding boxes, and the set of
question numbers `q` whose `"[Qq]"` tag occurs in the page text (the result
of the `feedback_text in page_text` containment test). -/
structure VPage where
  width : ℚ
  height : ℚ
  blocks : List Rect
  tags : List ℤ
deriving DecidableEq

/-- `QCResult` (quality_control.py, lines 19-24); the `improvements` dict
carries no information relevant to any claim and is omitted. -/
structure QCResult where
  is_approved : Bool
  issues : List String
deriving DecidableEq

/-- The pairwise overlap scan of `verify_output` (quality_control.py, lines
209-221): for every ordered pair `i < j` of text blocks on the page whose
rectangles intersect, one `"Text overlap detected on page N"` issue. -/
def overlapScanIssues (page_num : ℕ) : List Rect → List String
  | [] => []
  | b :: rest =>
    (rest.filterMap fun b2 =>
      if fitzIntersects b b2 then
        some ("Text overlap detected on page " ++ toString (page_num + 1))
      else none) ++
    overlapScanIssues page_num rest

/-- The text-visibility check of `verify_output` (quality_control.py, lines
224-229): one issue per block extending beyond the page rectangle. -/
def visibilityIssues (page_num : ℕ) (page : VPage) : List String :=
  page.blocks.filterMap fun b =>
    if b.x0 < 0 ∨ page.width < b.x1 ∨ b.y0 < 0 ∨ page.height < b.y1 then
      some ("Text extends beyond page margins on page " ++ toString (page_num + 1))
    else none

/-- The per-page body of `verify_output` (quality_control.py, lines 191-229):
readability issues for the feedback items found on the page (readability
itself renders pixmaps and is a collaborator, passed as `readable`), then the
overlap scan, then the visibility check. -/
def verifyPageIssues (readable : ℕ → ℤ → Bool) (original_feedback : List FeedbackItem)
    (page_num : ℕ) (page : VPage) : List String :=
  (original_feedback.filterMap fun f =>
    if f.question_num ∈ page.tags then
      if readable page_num f.question_num then none
      else some ("Feedback for Q" ++ toString f.question_num ++ " may not be readable")
    else none) ++
  overlapScanIssues page_num page.blocks ++
  visibilityIssues page_num page

/-- The completeness check of `verify_output` (quality_control.py, lines
231-238): a feedback item is found when its tag occurs on some page; if any
are missing, one summary issue is appended. -/
def missingFeedbackIssues (doc : List VPage) (original_feedback : List FeedbackItem) :
    List String :=
  let missing := original_feedback.filter fun f =>
    doc.all fun page => decide (f.question_num ∉ page.tags)
  if missing.isEmpty then []
  else
    ["Missing feedback for questions: " ++
      String.intercalate ", " (missing.map fun f => toString f.question_num)]

/-- The issue accumulation of the `try` body of `verify_output`. -/
def verifyBody (readable : ℕ → ℤ → Bool) (doc : List VPage)
    (original_feedback : List FeedbackItem) : List String :=
  (doc.enum.flatMap fun pair =>
    verifyPageIssues readable original_feedback pair.1 pair.2) ++
  missingFeedbackIssues doc original_feedback

/-- The result assembly of `QualityControlAgent.verify_output`
(quality_control.py, lines 240-261).  On a normally completed body,
`is_approved = (len(all_issues) == 0)` with the accumulated issues; on an
internal exception `e`, the `except` branch returns `is_approved=False` with
the single issue `"Quality control check failed: " + str(e)` instead of
re-raising. -/
def verifyOutputResult (body : Except String (List String)) : QCResult :=
  match body with
  | Except.ok all_issues =>
    { is_approved := all_issues.length == 0, issues := all_issues }
  | Except.error e =>
    { is_approved := false, issues := ["Quality control check failed: " ++ e] }

/-- `verify_output` on a run whose body completes without an internal
failure.  The document and feedback are consumed read-only: the gate returns
a report and nothing else. -/
def verifyOutput (readable : ℕ → ℤ → Bool) (doc : List VPage)
    (original_feedback : List FeedbackItem) : QCResult :=
  verifyOutputResult (Except.ok (verifyBody readable doc original_feedback))

/-! Concrete inputs used to evaluate the embedded code. -/

/-- A feedback text of 46 characters, so its approximated width is
`46 * 5.5 = 253` points. -/
def cexText : String := "needs more detail and one fully worked example"

/-- An answer region on page 0. -/
def cexAnswer1 : Region := ⟨0, ⟨100, 100, 200, 120⟩, RegionKind.answer, some 1⟩

/-- A second answer region on page 0, to the right of the first. -/
def cexAnswer2 : Region := ⟨0, ⟨300, 100, 400, 120⟩, RegionKind.answer, some 2⟩

/-- A layout holding the two answer regions and nothing else (derived page
dimensions: `500 × 220`). -/
def cexLayout : LayoutAnalysisResult :=
  ⟨[], [cexAnswer1, cexAnswer2], [], 9 / 10⟩

/-- A layout with one question region and no answer regions at all. -/
def c2Layout : LayoutAnalysisResult :=
  ⟨[⟨0, ⟨50, 50, 200, 70⟩, RegionKind.question, some 1⟩], [], [], 9 / 10⟩

/-- One feedback entry for question 1. -/
def c2Feedback : List FeedbackItem := [⟨1, "Wrong", false⟩]

/-- The same layout with a located answer region for question 1. -/
def c2LayoutOk : LayoutAnalysisResult :=
  ⟨[⟨0, ⟨50, 50, 200, 70⟩, RegionKind.question, some 1⟩],
   [⟨0, ⟨50, 80, 200, 100⟩, RegionKind.answer, some 1⟩], [], 9 / 10⟩

end Grader

/-- C9: the overlap predicate used everywhere in the system is symmetric, and
reflexive on non-degenerate rectangles (`x0 ≤ x1`, `y0 ≤ y1`). -/
theorem c9_rectangles_overlap_symm_refl :
    (∀ a b : Grader.Rect, Grader.rectanglesOverlap a b = Grader.rectanglesOverlap b a) ∧
    (∀ a : Grader.Rect, a.x0 ≤ a.x1 → a.y0 ≤ a.y1 →
      Grader.rectanglesOverlap a a = true) := by
  constructor
  · intro a b
    simp only [Grader.rectanglesOverlap, gt_iff_lt]
    by_cases h1 : a.x1 < b.x0 <;> by_cases h2 : b.x1 < a.x0 <;>
      by_cases h3 : a.y1 < b.y0 <;> by_cases h4 : b.y1 < a.y0 <;>
      simp [h1, h2, h3, h4]
  · intro a hx hy
    simp only [Grader.rectanglesOverlap, gt_iff_lt]
    simp [not_lt.mpr hx, not_lt.mpr hy]

/-- Witness for C9 at concrete rectangles. -/
theorem c9_rectangles_overlap_symm_refl_witness :
    Grader.rectanglesOverlap ⟨0, 0, 2, 2⟩ ⟨1, 1, 3, 3⟩ =
      Grader.rectanglesOverlap ⟨1, 1, 3, 3⟩ ⟨0, 0, 2, 2⟩ ∧
    Grader.rectanglesOverlap ⟨0, 0, 2, 2⟩ ⟨0, 0, 2, 2⟩ = true :=
  ⟨c9_rectangles_overlap_symm_refl.1 ⟨0, 0, 2, 2⟩ ⟨1, 1, 3, 3⟩,
   c9_rectangles_overlap_symm_refl.2 ⟨0, 0, 2, 2⟩ (by norm_num) (by norm_num)⟩

/-- Per-iteration bounds of the quality-control retry loop: within a budget of
`remaining` iterations, at most `remaining` calls to `verify_output` and at
most `remaining` replanning calls are made. -/
theorem qcRetryGo_bounds (approvedAt : ℕ → Bool) :
    ∀ (remaining retry_count : ℕ),
      (Grader.qcRetryGo approvedAt retry_count remaining).1 ≤ remaining ∧
      (Grader.qcRetryGo approvedAt retry_count remaining).2.1 ≤ remaining := by
  intro remaining
  induction remaining with
  | zero => intro rc; simp [Grader.qcRetryGo]
  | succ n ih =>
    intro rc
    by_cases h : approvedAt rc = true
    · simp [Grader.qcRetryGo, h]
    · have := ih (rc + 1)
      simp only [Grader.qcRetryGo, h, Bool.false_eq_true, if_false]
      omega

/-- C3 counterexample: with the quality gate rejecting every attempt and the
code's constant `max_retries = 3`, one `process_submission` run performs the
initial `create_marked_pdf` call plus 3 replanning calls — 4 planning
attempts in total, exceeding the claimed bound of 3. -/
theorem c3_counterexample :
    Grader.totalPlanningCalls (fun _ => false) 3 = 4 ∧
    ¬ Grader.totalPlanningCalls (fun _ => false) 3 ≤ 3 := by
  constructor
  · rfl
  · decide

/-- C3 (amended): the retry loop always terminates; within a budget of
`max_retries` it performs at most `max_retries` quality verifications and at
most `max_retries` replans, so a run makes at most `max_retries + 1` planning
attempts in total (one initial plan plus the replans), and the explicit
`quality_check_passed` flag is always returned. -/
theorem c3_retries_bounded :
    ∀ (approvedAt : ℕ → Bool) (max_retries : ℕ),
      (Grader.processSubmissionRetries approvedAt max_retries).1 ≤ max_retries ∧
      (Grader.processSubmissionRetries approvedAt max_retries).2.1 ≤ max_retries ∧
      Grader.totalPlanningCalls approvedAt max_retries ≤ max_retries + 1 ∧
      ((Grader.processSubmissionRetries approvedAt max_retries).2.2 = true ∨
        (Grader.processSubmissionRetries approvedAt max_retries).2.2 = false) := by
  intro approvedAt max_retries
  have h := qcRetryGo_bounds approvedAt max_retries 0
  unfold Grader.totalPlanningCalls Grader.processSubmissionRetries
  refine ⟨h.1, h.2, by omega, ?_⟩
  rcases (Grader.qcRetryGo approvedAt 0 max_retries).2.2 with _ | _
  · right; rfl
  · left; rfl

/-- Flattening invariant of the margin wrap of
`PDFFormattingAgent.create_marked_pdf`: the wrapped lines contain exactly the
pending `current_line` followed by the remaining words. -/
theorem wrapWordsGo_flatten (char_width margin_width : ℚ) :
    ∀ (words current_line : List String) (current_width : ℚ),
      (Grader.wrapWordsGo char_width margin_width current_line current_width
        words).flatten = current_line ++ words := by
  intro words
  induction words with
  | nil =>
    intro cur curw
    cases cur <;> simp [Grader.wrapWordsGo]
  | cons w ws ih =>
    intro cur curw
    by_cases h : curw + (w.length : ℚ) * char_width ≤ margin_width
    · simp only [Grader.wrapWordsGo, if_pos h]
      rw [ih]
      simp
    · simp only [Grader.wrapWordsGo, if_neg h]
      cases cur with
      | nil => simp [ih]
      | cons c cs => simp [ih]

/-- C4: the margin wrap of `PDFFormattingAgent.create_marked_pdf` preserves
every word in order for every character width and available width, but the
parallel wrap of `PDFService.create_marked_pdf` is not preserving: with a
per-line budget of 7 characters (a 100-point-wide page) the 9-letter word
"evaluated" is silently discarded and no line at all is produced. -/
theorem c4_wrap_preservation_and_service_drop :
    (∀ (char_width margin_width : ℚ) (words : List String),
      (Grader.wrapWords char_width margin_width words).flatten = words) ∧
    Grader.serviceWrap 7 [String.mk ['e', 'v', 'a', 'l', 'u', 'a', 't', 'e', 'd']] = [] := by
  constructor
  · intro cw mw words
    simpa using wrapWordsGo_flatten cw mw words [] 0
  · rfl

/-- C5: the Quality Gate's report is approved exactly when its issue list is
empty — on every normally completed verification and also on the
internal-failure branch; the gate returns only the report, leaving the
document and feedback it reads unchanged. -/
theorem c5_approved_iff_no_issues :
    (∀ body : Except String (List String),
      ((Grader.verifyOutputResult body).is_approved = true ↔
        (Grader.verifyOutputResult body).issues = [])) ∧
    (∀ (readable : ℕ → ℤ → Bool) (doc : List Grader.VPage)
        (fb : List Grader.FeedbackItem),
      ((Grader.verifyOutput readable doc fb).is_approved = true ↔
        (Grader.verifyOutput readable doc fb).issues = [])) := by
  have hbody : ∀ body : Except String (List String),
      ((Grader.verifyOutputResult body).is_approved = true ↔
        (Grader.verifyOutputResult body).issues = []) := by
    intro body
    cases body with
    | ok issues =>
      simp [Grader.verifyOutputResult, List.length_eq_zero]
    | error e =>
      simp [Grader.verifyOutputResult]
  exact ⟨hbody, fun readable doc fb => hbody _⟩

/-- C7: an internal failure `e` of the Quality Gate is converted into a
report with `is_approved = false` and exactly one issue describing the
failure; `verify_output` returns it instead of re-raising, so the retry
orchestrator always receives a `QCResult`. -/
theorem c7_internal_failure_reported :
    ∀ e : String,
      (Grader.verifyOutputResult (Except.error e)).is_approved = false ∧
      (Grader.verifyOutputResult (Except.error e)).issues.length = 1 := by
  intro e
  exact ⟨rfl, rfl⟩

/-- C2 counterexample: feedback for question 1 is requested and a question
region for it exists, but no answer region can be located, so
`create_marked_pdf` skips the annotation (`if not answer_info: continue`) and
produces no placement at all for ordinal 1 — fewer placements than requested
ordinals, with no degraded fallback. -/
theorem c2_counterexample :
    Grader.placedFeedback Grader.c2Layout Grader.c2Feedback 1 = [] ∧
    Grader.c2Feedback.map (fun f => f.question_num) = [1] := by
  constructor
  · rfl
  · rfl

/-- C2 (amended): `create_marked_pdf` produces a feedback placement only for
requested ordinals — every placed ordinal comes from some entry of the
feedback data — but an annotation whose answer region cannot be located is
silently skipped, so the placement set can be a strict subset of the
requested ordinals (the fixed last-resort position of
`_find_next_available_space` is not reached on this path). -/
theorem c2_placed_subset_of_requested :
    ∀ (layout : Grader.LayoutAnalysisResult)
      (feedback_data : List Grader.FeedbackItem) (num_pages : ℕ) (q : ℤ),
      q ∈ Grader.placedFeedback layout feedback_data num_pages →
      ∃ f ∈ feedback_data, f.question_num = q := by
  intro layout feedback_data num_pages q hq
  simp only [Grader.placedFeedback, List.mem_flatMap, List.mem_filterMap] at hq
  obtain ⟨page_num, _, qr, _, hmatch⟩ := hq
  rcases hfind : feedback_data.find?
      (fun f => (some f.question_num : Option ℤ) == qr.question_num) with _ | f
  · rw [hfind] at hmatch; simp at hmatch
  · rw [hfind] at hmatch
    rcases hans : Grader.findAnswerRegion qr layout.answer_regions with _ | a
    · rw [hans] at hmatch; simp at hmatch
    · rw [hans] at hmatch
      simp only [Option.some.injEq] at hmatch
      exact ⟨f, List.mem_of_find?_eq_some hfind, hmatch⟩

/-- Witness for C2's amended theorem: in a layout where question 1 does have
a located answer region, ordinal 1 is placed, and the theorem yields that it
was requested. -/
theorem c2_placed_subset_of_requested_witness :
    1 ∈ Grader.placedFeedback Grader.c2LayoutOk Grader.c2Feedback 1 ∧
    ∃ f ∈ Grader.c2Feedback, f.question_num = 1 :=
  ⟨by decide,
   c2_placed_subset_of_requested Grader.c2LayoutOk Grader.c2Feedback 1 1 (by decide)⟩

/-- The question regions returned by `analyze_layout` are a permutation of
the question-kind regions emitted by the classifier pass (two stable sorts
and a filter). -/
theorem analyzeLayout_question_regions_perm
    (matchQ : String → Option (ℤ × String)) (matchA : String → Option String)
    (lines : List Grader.Line) (text_blocks : List Grader.Region) :
    List.Perm
      (Grader.analyzeLayout matchQ matchA lines text_blocks).question_regions
      ((Grader.classifyLines matchQ matchA ⟨none, none⟩ lines).2.filter
        (fun r => r.kind == Grader.RegionKind.question)) := by
  unfold Grader.analyzeLayout Grader.analyzeLayoutTool
  refine (List.perm_insertionSort _ _).trans ?_
  exact (List.perm_insertionSort _ _).filter _

/-- C6: when the classifier pass emits no question region, `analyze_layout`
reports confidence `0.0` and `process_submission` aborts with
`"No questions detected in the document"` regardless of the placement stage,
which is never run; when at least one question region is emitted, the
confidence is `0.9`. -/
theorem c6_zero_prompts_aborts :
    ∀ (matchQ : String → Option (ℤ × String)) (matchA : String → Option String)
      (lines : List Grader.Line) (text_blocks : List Grader.Region),
      ((Grader.analyzeLayout matchQ matchA lines text_blocks).question_regions = [] →
        (Grader.analyzeLayout matchQ matchA lines text_blocks).confidence = 0 ∧
        ∀ plan, Grader.processSubmissionPipeline
            (Grader.analyzeLayout matchQ matchA lines text_blocks) plan =
          Except.error "No questions detected in the document") ∧
      ((Grader.analyzeLayout matchQ matchA lines text_blocks).question_regions ≠ [] →
        (Grader.analyzeLayout matchQ matchA lines text_blocks).confidence = 9 / 10) := by
  intro matchQ matchA lines text_blocks
  have hperm := analyzeLayout_question_regions_perm matchQ matchA lines text_blocks
  have hconf : (Grader.analyzeLayout matchQ matchA lines text_blocks).confidence =
      if 0 < ((Grader.analyzeLayout matchQ matchA lines
          text_blocks).question_regions).length then (9 : ℚ) / 10 else 0 := by
    have hlen : ((Grader.analyzeLayout matchQ matchA lines
        text_blocks).question_regions).length =
        ((List.insertionSort Grader.layoutOrder
            (Grader.classifyLines matchQ matchA ⟨none, none⟩ lines).2).filter
          (fun r => r.kind == Grader.RegionKind.question)).length := by
      refine hperm.length_eq.trans ?_
      exact (((List.perm_insertionSort Grader.layoutOrder _).filter _).length_eq).symm
    unfold Grader.analyzeLayout Grader.analyzeLayoutTool
    simp only
    rw [← hlen]
    rfl
  constructor
  · intro hempty
    have hconf0 : (Grader.analyzeLayout matchQ matchA lines text_blocks).confidence = 0 := by
      rw [hconf, hempty]
      simp
    refine ⟨hconf0, ?_⟩
    intro plan
    unfold Grader.processSubmissionPipeline
    rw [hempty]
    rfl
  · intro hne
    rw [hconf]
    have : 0 < ((Grader.analyzeLayout matchQ matchA lines
        text_blocks).question_regions).length := by
      cases h : (Grader.analyzeLayout matchQ matchA lines text_blocks).question_regions with
      | nil => exact absurd h hne
      | cons a l => simp [h]
    simp [this]

/-- Witness for C6 at a concrete run that detects nothing: matchers that
never match and an empty line list. -/
theorem c6_zero_prompts_aborts_witness :
    (Grader.analyzeLayout (fun _ => none) (fun _ => none) [] []).confidence = 0 ∧
    Grader.processSubmissionPipeline
        (Grader.analyzeLayout (fun _ => none) (fun _ => none) [] [])
        (fun _ => []) =
      Except.error "No questions detected in the document" := by
  have h := (c6_zero_prompts_aborts (fun _ => none) (fun _ => none) [] []).1 rfl
  exact ⟨h.1, h.2 (fun _ => [])⟩

/-- C8 counterexample: a line matching no prompt pattern and no answer
marker, with a current prompt ordinal set (to 0) and a bbox strictly below
the current prompt's bbox, is classified Plain — no Response region is
emitted — because `if not is_question and current_question:` treats the
integer 0 as falsy.  The claim's hypotheses all hold at this input, yet the
emission it promises does not happen. -/
theorem c8_counterexample :
    Grader.classifyLine (fun _ => none) (fun _ => none)
        ⟨some 0, some ⟨0, 0, 10, 10⟩⟩ ⟨0, ⟨0, 20, 10, 30⟩, "sky"⟩ =
      (⟨some 0, some ⟨0, 0, 10, 10⟩⟩, []) ∧
    (⟨0, 0, 10, 10⟩ : Grader.Rect).y1 < (⟨0, 20, 10, 30⟩ : Grader.Rect).y0 ∧
    (⟨some 0, some ⟨0, 0, 10, 10⟩⟩ : Grader.ClassifierState).current_question =
      some 0 := by
  refine ⟨rfl, by norm_num, rfl⟩

/-- C8 (amended): for a line matching no prompt pattern and no explicit
answer marker, with the current prompt ordinal set *and nonzero* (Python's
`if ... and current_question:` treats 0 as unset) and the line's bbox
strictly below the current prompt's bbox, the classifier emits exactly one
implied Response region tied to the current ordinal; and a line matching no
prompt pattern before any prompt has been seen emits nothing (Plain). -/
theorem c8_implied_response_classification :
    (∀ (matchQ : String → Option (ℤ × String)) (matchA : String → Option String)
       (st : Grader.ClassifierState) (line : Grader.Line) (q : ℤ) (cb : Grader.Rect),
       matchQ line.text = none → matchA line.text = none →
       st.current_question = some q → q ≠ 0 →
       st.current_question_bbox = some cb → cb.y1 < line.bbox.y0 →
       Grader.classifyLine matchQ matchA st line =
         (st, [⟨line.page, line.bbox, Grader.RegionKind.answer, some q⟩])) ∧
    (∀ (matchQ : String → Option (ℤ × String)) (matchA : String → Option String)
       (st : Grader.ClassifierState) (line : Grader.Line),
       st.current_question = none → matchQ line.text = none →
       Grader.classifyLine matchQ matchA st line = (st, [])) := by
  constructor
  · intro matchQ matchA st line q cb hq ha hcur hq0 hcb hbelow
    unfold Grader.classifyLine
    rw [hq, ha]
    have htruthy : Grader.pyTruthy st.current_question = true := by
      rw [hcur]
      simp [Grader.pyTruthy, hq0]
    rw [htruthy]
    simp only [if_true, hcb, hcur]
    rw [if_pos hbelow]
  · intro matchQ matchA st line hcur hq
    unfold Grader.classifyLine
    rw [hq, hcur]
    rfl

/-- Witness for C8's amended theorem: both branches applied at concrete
inputs — a pending prompt 2 with a line below it, and a fresh state. -/
theorem c8_implied_response_classification_witness :
    Grader.classifyLine (fun _ => none) (fun _ => none)
        ⟨some 2, some ⟨0, 0, 10, 10⟩⟩ ⟨0, ⟨0, 20, 10, 30⟩, "sky"⟩ =
      (⟨some 2, some ⟨0, 0, 10, 10⟩⟩,
        [⟨0, ⟨0, 20, 10, 30⟩, Grader.RegionKind.answer, some 2⟩]) ∧
    Grader.classifyLine (fun _ => none) (fun _ => none)
        ⟨none, none⟩ ⟨0, ⟨0, 20, 10, 30⟩, "sky"⟩ = (⟨none, none⟩, []) :=
  ⟨c8_implied_response_classification.1 (fun _ => none) (fun _ => none)
      ⟨some 2, some ⟨0, 0, 10, 10⟩⟩ ⟨0, ⟨0, 20, 10, 30⟩, "sky"⟩ 2 ⟨0, 0, 10, 10⟩
      rfl rfl rfl (by norm_num) rfl (by norm_num),
   c8_implied_response_classification.2 (fun _ => none) (fun _ => none)
      ⟨none, none⟩ ⟨0, ⟨0, 20, 10, 30⟩, "sky"⟩ rfl rfl⟩

/-- Exit behaviour of the `_find_next_available_space` scan from any starting
height: it returns either the last-resort `(50, 50)` or a slot at `x = 50`
whose candidate rectangle is overlap-free. -/
theorem findNextGo_spec (td : Grader.TextDims) (layout : Grader.LayoutAnalysisResult)
    (page_num : ℤ) (page_info : Grader.PageDims) (hh : 0 ≤ td.height) (y : ℚ) :
    Grader.findNextGo td layout page_num page_info hh y = (50, 50) ∨
      ((Grader.findNextGo td layout page_num page_info hh y).1 = 50 ∧
        Grader.hasOverlap
          (Grader.scanTestRect td page_info
            (Grader.findNextGo td layout page_num page_info hh y).2)
          layout page_num = false) := by
  refine Grader.findNextGo.induct td layout page_num page_info hh
    (fun y0 => Grader.findNextGo td layout page_num page_info hh y0 = (50, 50) ∨
      ((Grader.findNextGo td layout page_num page_info hh y0).1 = 50 ∧
        Grader.hasOverlap
          (Grader.scanTestRect td page_info
            (Grader.findNextGo td layout page_num page_info hh y0).2)
          layout page_num = false))
    ?_ ?_ ?_ y
  · intro x hlt hfree
    right
    rw [Grader.findNextGo.eq_def, dif_pos hlt, if_pos hfree]
    simp only [Bool.not_eq_true'] at hfree
    exact ⟨rfl, hfree⟩
  · intro x hlt hov ih
    rw [Grader.findNextGo.eq_def, dif_pos hlt, if_neg hov]
    exact ih
  · intro x hnlt
    left
    rw [Grader.findNextGo.eq_def, dif_neg hnlt]

/-- Exit behaviour of the below-answer shifting loop of
`_plan_feedback_placement`: it returns either the fallback of
`_find_next_available_space` (entered when `y` passes the page bound) or a
position at the original `x` whose candidate rectangle is overlap-free. -/
theorem belowLoopGo_spec (td : Grader.TextDims) (available_width : ℚ)
    (layout : Grader.LayoutAnalysisResult) (page_num : ℤ)
    (page_dims : Grader.PageDims) (hh : 0 ≤ td.height) (x y : ℚ) :
    Grader.belowLoopGo td available_width layout page_num page_dims hh x y =
        Grader.findNextAvailableSpace td layout page_num page_dims hh ∨
      ((Grader.belowLoopGo td available_width layout page_num page_dims hh x y).1 = x ∧
        Grader.hasOverlap
          (Grader.belowTestRect td available_width x
            (Grader.belowLoopGo td available_width layout page_num page_dims hh x y).2)
          layout page_num = false) := by
  refine Grader.belowLoopGo.induct td available_width layout page_num page_dims hh x
    (fun y0 => Grader.belowLoopGo td available_width layout page_num page_dims hh x y0 =
        Grader.findNextAvailableSpace td layout page_num page_dims hh ∨
      ((Grader.belowLoopGo td available_width layout page_num page_dims hh x y0).1 = x ∧
        Grader.hasOverlap
          (Grader.belowTestRect td available_width x
            (Grader.belowLoopGo td available_width layout page_num page_dims hh x y0).2)
          layout page_num = false))
    ?_ ?_ ?_ y
  · intro y0 hov hbound
    left
    rw [Grader.belowLoopGo.eq_def, if_pos hov, dif_pos hbound]
  · intro y0 hov hbound ih
    rw [Grader.belowLoopGo.eq_def, if_pos hov, dif_neg hbound]
    exact ih
  · intro y0 hov
    right
    rw [Grader.belowLoopGo.eq_def, if_neg hov]
    exact ⟨rfl, Bool.not_eq_true _ ▸ hov⟩

/-- C10: both downward scans of the Placement Planner are terminating total
functions (their Lean definitions carry the termination argument: each
iteration adds the positive constant `text height + 10` to `y` and the guard
bounds `y` by the page height minus the bottom margin).  The
next-available-space scan always answers at `x = 50` and yields either an
overlap-free slot or, once `y` passes `pageHeight - 50`, the fixed
last-resort `(50, 50)`; the below-response loop yields either an overlap-free
position at its original `x` or the result of the scan. -/
theorem c10_scan_loops_terminate :
    ∀ (td : Grader.TextDims) (available_width : ℚ)
      (layout : Grader.LayoutAnalysisResult) (page_num : ℤ)
      (page_dims : Grader.PageDims) (hh : 0 ≤ td.height) (x y : ℚ),
      ((Grader.findNextAvailableSpace td layout page_num page_dims hh).1 = 50 ∧
        (Grader.findNextAvailableSpace td layout page_num page_dims hh = (50, 50) ∨
          Grader.hasOverlap
            (Grader.scanTestRect td page_dims
              (Grader.findNextAvailableSpace td layout page_num page_dims hh).2)
            layout page_num = false)) ∧
      (Grader.belowLoopGo td available_width layout page_num page_dims hh x y =
          Grader.findNextAvailableSpace td layout page_num page_dims hh ∨
        ((Grader.belowLoopGo td available_width layout page_num page_dims hh x y).1 = x ∧
          Grader.hasOverlap
            (Grader.belowTestRect td available_width x
              (Grader.belowLoopGo td available_width layout page_num page_dims hh x y).2)
            layout page_num = false)) := by
  intro td available_width layout page_num page_dims hh x y
  constructor
  · have h := findNextGo_spec td layout page_num page_dims hh 50
    unfold Grader.findNextAvailableSpace
    rcases h with h | h
    · rw [h]
      exact ⟨rfl, Or.inl rfl⟩
    · exact ⟨h.1, Or.inr h.2⟩
  · exact belowLoopGo_spec td available_width layout page_num page_dims hh x y

/-- Witness for C10 at concrete inputs (`text height 13`, an empty layout,
page `595 × 842`). -/
theorem c10_scan_loops_terminate_witness :
    (0 : ℚ) ≤ (Grader.TextDims.mk 100 13).height ∧
    (((Grader.findNextAvailableSpace ⟨100, 13⟩ ⟨[], [], [], 0⟩ 0 ⟨595, 842⟩
        (by norm_num)).1 = 50 ∧
      (Grader.findNextAvailableSpace ⟨100, 13⟩ ⟨[], [], [], 0⟩ 0 ⟨595, 842⟩
          (by norm_num) = (50, 50) ∨
        Grader.hasOverlap
          (Grader.scanTestRect ⟨100, 13⟩ ⟨595, 842⟩
            (Grader.findNextAvailableSpace ⟨100, 13⟩ ⟨[], [], [], 0⟩ 0 ⟨595, 842⟩
              (by norm_num)).2)
          ⟨[], [], [], 0⟩ 0 = false)) ∧
    (Grader.belowLoopGo ⟨100, 13⟩ 200 ⟨[], [], [], 0⟩ 0 ⟨595, 842⟩
        (by norm_num) 30 40 =
        Grader.findNextAvailableSpace ⟨100, 13⟩ ⟨[], [], [], 0⟩ 0 ⟨595, 842⟩
          (by norm_num) ∨
      ((Grader.belowLoopGo ⟨100, 13⟩ 200 ⟨[], [], [], 0⟩ 0 ⟨595, 842⟩
          (by norm_num) 30 40).1 = 30 ∧
        Grader.hasOverlap
          (Grader.belowTestRect ⟨100, 13⟩ 200 30
            (Grader.belowLoopGo ⟨100, 13⟩ 200 ⟨[], [], [], 0⟩ 0 ⟨595, 842⟩
              (by norm_num) 30 40).2)
          ⟨[], [], [], 0⟩ 0 = false))) :=
  ⟨by norm_num,
   c10_scan_loops_terminate ⟨100, 13⟩ 200 ⟨[], [], [], 0⟩ 0 ⟨595, 842⟩
     (by norm_num) 30 40⟩

/-- C1 (amended): the Placement Planner maintains no occupancy of accepted
placements — `_has_overlap` consults exactly the static layout's question,
answer and text-block rectangles of the page, so a later placement is never
tested against an earlier accepted placement's rectangle (and, as the
counterexample shows, two sequentially planned placements can overlap). -/
theorem c1_overlap_checks_only_static_regions :
    ∀ (rect : Grader.Rect) (layout : Grader.LayoutAnalysisResult) (page_num : ℤ),
      Grader.hasOverlap rect layout page_num = true ↔
        ∃ r : Grader.Region,
          (r ∈ layout.question_regions ∨ r ∈ layout.answer_regions ∨
            r ∈ layout.text_blocks) ∧
          r.page = page_num ∧ Grader.rectanglesOverlap rect r.bbox = true := by
  intro rect layout page_num
  simp only [Grader.hasOverlap, Bool.or_eq_true, List.any_eq_true,
    Bool.and_eq_true, beq_iff_eq]
  constructor
  · rintro ((⟨r, hr, hpage, hov⟩ | ⟨r, hr, hpage, hov⟩) | ⟨r, hr, hpage, hov⟩)
    · exact ⟨r, Or.inl hr, hpage, hov⟩
    · exact ⟨r, Or.inr (Or.inl hr), hpage, hov⟩
    · exact ⟨r, Or.inr (Or.inr hr), hpage, hov⟩
  · rintro ⟨r, hr | hr | hr, hpage, hov⟩
    · exact Or.inl (Or.inl ⟨r, hr, hpage, hov⟩)
    · exact Or.inl (Or.inr ⟨r, hr, hpage, hov⟩)
    · exact Or.inr ⟨r, hr, hpage, hov⟩

/-- The below-answer candidate rectangle of the first annotation is free of
the two static answer regions. -/
theorem c1_free1 :
    Grader.hasOverlap (Grader.belowTestRect ⟨253, 13⟩ 350 100 135)
      Grader.cexLayout 0 = false := by
  simp [Grader.hasOverlap, Grader.cexLayout, Grader.cexAnswer1, Grader.cexAnswer2,
    Grader.rectanglesOverlap, Grader.belowTestRect]
  norm_num

/-- The below-answer candidate rectangle of the second annotation is free of
the two static answer regions. -/
theorem c1_free2 :
    Grader.hasOverlap (Grader.belowTestRect ⟨253, 13⟩ 150 300 135)
      Grader.cexLayout 0 = false := by
  simp [Grader.hasOverlap, Grader.cexLayout, Grader.cexAnswer1, Grader.cexAnswer2,
    Grader.rectanglesOverlap, Grader.belowTestRect]
  norm_num

/-- The text dimensions of the concrete annotation text. -/
theorem c1_td : Grader.calculateTextDimensions Grader.cexText 11 = ⟨253, 13⟩ := by
  have hlen : Grader.cexText.length = 46 := rfl
  simp only [Grader.calculateTextDimensions, Grader.TextDims.mk.injEq, hlen]
  norm_num

/-- The derived page dimensions of the concrete layout. -/
theorem c1_pd1 : Grader.planPageDims Grader.cexAnswer1 Grader.cexLayout = ⟨500, 220⟩ := by
  simp only [Grader.planPageDims, Grader.cexLayout, Grader.cexAnswer1, Grader.cexAnswer2,
    List.filter_nil, List.filter_cons, List.nil_append, List.foldl_cons, List.foldl_nil]
  norm_num [Grader.PageDims.mk.injEq]

/-- The derived page dimensions, seen from the second answer region. -/
theorem c1_pd2 : Grader.planPageDims Grader.cexAnswer2 Grader.cexLayout = ⟨500, 220⟩ := by
  simp only [Grader.planPageDims, Grader.cexLayout, Grader.cexAnswer1, Grader.cexAnswer2,
    List.filter_nil, List.filter_cons, List.nil_append, List.foldl_cons, List.foldl_nil]
  norm_num [Grader.PageDims.mk.injEq]

/-- The below loop accepts its first candidate for the first annotation. -/
theorem c1_below1 :
    ∀ pf, Grader.belowLoopGo ⟨253, 13⟩ 350 Grader.cexLayout 0 ⟨500, 220⟩ pf 100 135 =
      (100, 135) := by
  intro pf
  rw [Grader.belowLoopGo.eq_def, if_neg (by simp [c1_free1])]

/-- The below loop accepts its first candidate for the second annotation. -/
theorem c1_below2 :
    ∀ pf, Grader.belowLoopGo ⟨253, 13⟩ 150 Grader.cexLayout 0 ⟨500, 220⟩ pf 300 135 =
      (300, 135) := by
  intro pf
  rw [Grader.belowLoopGo.eq_def, if_neg (by simp [c1_free2])]

/-- Evaluation of the planner on the first answer region of the concrete
layout: right-of fails the width check (253 > 220), the first below-answer
candidate is free, so the placement lands at `(100, 135)`. -/
theorem c1_plan_eval1 :
    Grader.planFeedbackPlacement Grader.cexText Grader.cexAnswer1
        Grader.cexLayout false =
      ⟨0, (100, 135), 350, Grader.cexText, (1, 0, 0), true⟩ := by
  simp only [Grader.planFeedbackPlacement, c1_td, c1_pd1]
  split
  · rename_i hcond
    exact absurd hcond.1 (by simp [Grader.cexAnswer1]; norm_num)
  · norm_num [Grader.cexAnswer1, c1_below1, Grader.FeedbackPlacement.mk.injEq]

/-- Evaluation of the planner on the second answer region: right-of again
fails the width check (253 > 20), the first below-answer candidate is free,
so the placement lands at `(300, 135)` independently of the first one. -/
theorem c1_plan_eval2 :
    Grader.planFeedbackPlacement Grader.cexText Grader.cexAnswer2
        Grader.cexLayout false =
      ⟨0, (300, 135), 150, Grader.cexText, (1, 0, 0), true⟩ := by
  simp only [Grader.planFeedbackPlacement, c1_td, c1_pd2]
  split
  · rename_i hcond
    exact absurd hcond.1 (by simp [Grader.cexAnswer2]; norm_num)
  · norm_num [Grader.cexAnswer2, c1_below2, Grader.FeedbackPlacement.mk.injEq]

/-- C1 counterexample: the two annotations planned one after another on the
same page against the same (never-updated) layout land at `(100, 135)` and
`(300, 135)`, and their wrapped-block candidate rectangles — the very
rectangles `_plan_feedback_placement` tested against the layout — overlap.
The first accepted placement was never added to any occupancy, so the second
placement's overlap check did not test against it. -/
theorem c1_counterexample :
    (Grader.planFeedbackPlacement Grader.cexText Grader.cexAnswer1
        Grader.cexLayout false).position = (100, 135) ∧
    (Grader.planFeedbackPlacement Grader.cexText Grader.cexAnswer2
        Grader.cexLayout false).position = (300, 135) ∧
    Grader.rectanglesOverlap
      (Grader.belowTestRect (Grader.calculateTextDimensions Grader.cexText 11)
        (Grader.planFeedbackPlacement Grader.cexText Grader.cexAnswer1
          Grader.cexLayout false).width
        (Grader.planFeedbackPlacement Grader.cexText Grader.cexAnswer1
          Grader.cexLayout false).position.1
        (Grader.planFeedbackPlacement Grader.cexText Grader.cexAnswer1
          Grader.cexLayout false).position.2)
      (Grader.belowTestRect (Grader.calculateTextDimensions Grader.cexText 11)
        (Grader.planFeedbackPlacement Grader.cexText Grader.cexAnswer2
          Grader.cexLayout false).width
        (Grader.planFeedbackPlacement Grader.cexText Grader.cexAnswer2
          Grader.cexLayout false).position.1
        (Grader.planFeedbackPlacement Grader.cexText Grader.cexAnswer2
          Grader.cexLayout false).position.2) = true := by
  simp only [c1_plan_eval1, c1_plan_eval2, c1_td]
  refine ⟨trivial, trivial, ?_⟩
  simp [Grader.rectanglesOverlap, Grader.belowTestRect]
  norm_num
